import Mathlib

/-
Verification of the synthesis/playback orchestration and process-supervision
layer of the neko-tts application, as a shallow embedding of the Rust sources
under src-tauri/src (tts/types.rs, tts/player.rs, tts/manager.rs, server.rs).

External effects (engine synthesis, audio decoding, child-process liveness,
HTTP responses) are passed in as explicit parameters describing the outcome of
each effectful call, so every definition below is a pure, executable function
mirroring the corresponding Rust control flow. Floating point request
parameters (rate, pitch, volume) are modelled as rationals: the orchestrator
only copies them, never computes with them.
-/

namespace NekoTts

/-- Helper: whether an Except value is a success. -/
def exceptIsOk {ε α : Type} : Except ε α → Bool
  | .ok _ => true
  | .error _ => false

/-! ## Data model (tts/types.rs) -/

/-- Supported TTS engine types (types.rs, EngineType). -/
inductive EngineType where
  | system
  | piper
  | cloud
deriving DecidableEq, Repr

/-- Cloud TTS provider (types.rs, CloudProvider). -/
inductive CloudProvider where
  | openAI
  | azure
  | google
deriving DecidableEq, Repr

/-- TTS synthesis request (types.rs, TtsRequest). -/
structure TtsRequest where
  text : String
  engine : Option EngineType
  voice : Option String
  rate : Option Rat
  pitch : Option Rat
  volume : Option Rat
deriving DecidableEq, Repr

/-- TTS synthesis result, raw audio bytes (types.rs, TtsResult). -/
structure TtsResult where
  audio_data : List Nat
  sample_rate : Nat
  channels : Nat
  format : String
deriving DecidableEq, Repr

/-- System engine configuration (types.rs, SystemTtsConfig). -/
structure SystemTtsConfig where
  voice : Option String
deriving DecidableEq, Repr

/-- Piper engine configuration (types.rs, PiperTtsConfig). -/
structure PiperTtsConfig where
  model_path : Option String
  piper_binary : Option String
deriving DecidableEq, Repr

/-- Cloud engine configuration (types.rs, CloudTtsConfig). -/
structure CloudTtsConfig where
  provider : CloudProvider
  api_key : Option String
  voice : Option String
  endpoint : Option String
deriving DecidableEq, Repr

/-- Whole persisted TTS configuration (types.rs, TtsConfig). -/
structure TtsConfig where
  active_engine : EngineType
  system : SystemTtsConfig
  piper : PiperTtsConfig
  cloud : CloudTtsConfig
  default_rate : Rat
  default_pitch : Rat
  default_volume : Rat
deriving DecidableEq, Repr

/-- Current playback state (types.rs, PlaybackState). -/
inductive PlaybackState where
  | idle
  | synthesizing
  | playing
  | paused
  | error
deriving DecidableEq, Repr

/-! ## Audio output worker (tts/player.rs) -/

/-- Commands sent to the audio player thread (player.rs, PlayerCommand). -/
inductive PlayerCommand where
  | play (audioData : List Nat)
  | stop
  | pause
  | resume
  | setVolume (vol : Rat)
  | shutdown
deriving DecidableEq, Repr

/-- Responses from the audio player thread (player.rs, PlayerResponse). -/
inductive PlayerResponse where
  | ok
  | error (msg : String)
deriving DecidableEq, Repr

/-- The single init-handshake response the worker thread sends before entering
its command loop (player.rs lines 41-68). `streamRes` is the outcome of
`OutputStream::try_default` and `sinkRes` the outcome of `Sink::try_new`;
in every case exactly one response is sent. -/
def workerInitResponse (streamRes sinkRes : Except String Unit) : PlayerResponse :=
  match streamRes with
  | .error e => .error ("Failed to open audio output: " ++ e)
  | .ok _ =>
    match sinkRes with
    | .error e => .error ("Failed to create audio sink: " ++ e)
    | .ok _ => .ok

/-- One iteration of the worker command loop (player.rs lines 71-112): the
response sent for a command and whether the loop continues. `decodeRes` is
the outcome of `Decoder::new` on the given bytes. A decode failure reports an
error but keeps the loop alive; only Shutdown ends the loop. -/
def handleCommand (decodeRes : List Nat → Except String Unit) :
    PlayerCommand → PlayerResponse × Bool
  | .play audioData =>
    match decodeRes audioData with
    | .ok _ => (.ok, true)
    | .error e => (.error ("Failed to decode audio: " ++ e), true)
  | .stop => (.ok, true)
  | .pause => (.ok, true)
  | .resume => (.ok, true)
  | .setVolume _ => (.ok, true)
  | .shutdown => (.ok, false)

namespace AudioPlayer

/-- Construction of the public audio-player handle (player.rs lines 36-127),
as a function of the first message read from the response channel: `none`
models the channel closing because the worker thread terminated without
sending a response, `some r` models receiving `r`. The handle itself carries
no further data in this model, so success is `Except.ok ()`. -/
def new (firstResp : Option PlayerResponse) : Except String Unit :=
  match firstResp with
  | none => .error "Audio player thread died during init"
  | some .ok => .ok ()
  | some (.error e) => .error ("Audio player init failed: " ++ e)

/-- send_cmd (player.rs lines 129-142) for a live worker: while a handle
exists the worker thread is inside its command loop (the loop only exits on
Shutdown, sent when the handle is dropped), so the reply is exactly the
response `handleCommand` produces. -/
def sendCmd (decodeRes : List Nat → Except String Unit) (cmd : PlayerCommand) :
    Except String Unit :=
  match (handleCommand decodeRes cmd).1 with
  | .ok => .ok ()
  | .error e => .error e

/-- play (player.rs lines 145-147). -/
def play (decodeRes : List Nat → Except String Unit) (result : TtsResult) :
    Except String Unit :=
  sendCmd decodeRes (.play result.audio_data)

/-- stop (player.rs lines 150-152). -/
def stop (decodeRes : List Nat → Except String Unit) : Except String Unit :=
  sendCmd decodeRes .stop

/-- pause (player.rs lines 155-157). -/
def pause (decodeRes : List Nat → Except String Unit) : Except String Unit :=
  sendCmd decodeRes .pause

/-- resume (player.rs lines 160-162). -/
def resume (decodeRes : List Nat → Except String Unit) : Except String Unit :=
  sendCmd decodeRes .resume

end AudioPlayer

/-! ## Engines captured at manager construction (tts/piper_tts.rs, tts/cloud_tts.rs) -/

/-- Piper engine state (piper_tts.rs, PiperTtsEngine fields). -/
structure PiperTtsEngine where
  piper_binary : String
  model_path : Option String
deriving DecidableEq, Repr

/-- PiperTtsEngine::new (piper_tts.rs lines 19-28). -/
def PiperTtsEngine.new (piper_binary model_path : Option String) : PiperTtsEngine :=
  { piper_binary := piper_binary.getD "piper"
    model_path := model_path }

/-- Cloud engine state (cloud_tts.rs, CloudTtsEngine fields; the HTTP client
carries no configuration of its own). -/
structure CloudTtsEngine where
  provider : CloudProvider
  api_key : String
  voice : String
  endpoint : Option String
deriving DecidableEq, Repr

/-- Default voice per provider (cloud_tts.rs lines 25-29). -/
def defaultCloudVoice : CloudProvider → String
  | .openAI => "alloy"
  | .azure => "en-US-JennyNeural"
  | .google => "en-US-Standard-C"

/-- CloudTtsEngine::new (cloud_tts.rs lines 19-37). -/
def CloudTtsEngine.new (provider : CloudProvider) (api_key : String)
    (voice endpoint : Option String) : CloudTtsEngine :=
  { provider := provider
    api_key := api_key
    voice := voice.getD (defaultCloudVoice provider)
    endpoint := endpoint }

/-! ## Playback orchestrator (tts/manager.rs) -/

/-- Manager state (manager.rs, TtsManager fields). The system engine holds no
configuration-derived state and is omitted; the player field records whether
an audio-player handle was obtained at construction. -/
structure TtsManager where
  piper_engine : PiperTtsEngine
  cloud_engine : Option CloudTtsEngine
  player : Option Unit
  config : TtsConfig
  state : PlaybackState

/-- TtsManager::new (manager.rs lines 27-66): engines are built from the
construction-time configuration; the cloud engine exists exactly when a
non-empty api key is configured; a failed audio-player construction leaves
`player` empty (a warning is printed and startup continues). -/
def TtsManager.new (config : TtsConfig) (playerFirstResp : Option PlayerResponse) :
    TtsManager :=
  { piper_engine := PiperTtsEngine.new config.piper.piper_binary config.piper.model_path
    cloud_engine :=
      match config.cloud.api_key with
      | some apiKey =>
        if apiKey.isEmpty then none
        else some (CloudTtsEngine.new config.cloud.provider apiKey
          config.cloud.voice config.cloud.endpoint)
      | none => none
    player :=
      match AudioPlayer.new playerFirstResp with
      | .ok _ => some ()
      | .error _ => none
    config := config
    state := .idle }

/-- Engine resolution in speak (manager.rs lines 71-75): request override,
else the configured active engine. -/
def resolveEngine (config : TtsConfig) (request : TtsRequest) : EngineType :=
  request.engine.getD config.active_engine

/-- Default filling in speak (manager.rs lines 78-85): each unset rate, pitch
and volume is replaced by the configuration default; text, engine and voice
pass through. -/
def resolveRequest (config : TtsConfig) (request : TtsRequest) : TtsRequest :=
  { text := request.text
    engine := request.engine
    voice := request.voice
    rate := some (request.rate.getD config.default_rate)
    pitch := some (request.pitch.getD config.default_pitch)
    volume := some (request.volume.getD config.default_volume) }

/-- Synthesis dispatch in speak (manager.rs lines 92-99). `synth` describes
the outcome each concrete engine synthesize call would produce; the Cloud arm
errors without any engine call when no cloud engine is configured. -/
def synthResult (synth : EngineType → TtsRequest → Except String TtsResult)
    (cloudEngine : Option CloudTtsEngine) :
    EngineType → TtsRequest → Except String TtsResult
  | .system, req => synth .system req
  | .piper, req => synth .piper req
  | .cloud, req =>
    match cloudEngine with
    | some _ => synth .cloud req
    | none => .error "Cloud TTS not configured"

/-- Which engine synthesize call the dispatch (manager.rs lines 92-99)
performs, with the request it receives; none when the Cloud arm short-circuits
because no cloud engine is configured. -/
def engineCalled (cloudEngine : Option CloudTtsEngine) :
    EngineType → TtsRequest → Option (EngineType × TtsRequest)
  | .cloud, req =>
    match cloudEngine with
    | some _ => some (.cloud, req)
    | none => none
  | .system, req => some (.system, req)
  | .piper, req => some (.piper, req)

/-- Result of one speak call: the updated manager, the value returned to the
caller, the engine synthesize call performed, and the synthesis result
forwarded to the audio worker Play command (if any). -/
structure SpeakOutcome where
  manager : TtsManager
  ret : Except String Unit
  engineCall : Option (EngineType × TtsRequest)
  forwarded : Option TtsResult

/-- TtsManager::speak (manager.rs lines 69-118). The state is set to
Synthesizing before dispatch (line 89) and then overwritten on every path:
Playing just before the buffer is handed to the player (whose play result is
returned to the caller as-is), Error when synthesis failed or no player
exists. -/
def TtsManager.speak (synth : EngineType → TtsRequest → Except String TtsResult)
    (decodeRes : List Nat → Except String Unit) (m : TtsManager)
    (request : TtsRequest) : SpeakOutcome :=
  let engineType := resolveEngine m.config request
  let req := resolveRequest m.config request
  match synthResult synth m.cloud_engine engineType req with
  | .ok ttsResult =>
    match m.player with
    | some _ =>
      { manager := { m with state := .playing }
        ret := AudioPlayer.play decodeRes ttsResult
        engineCall := engineCalled m.cloud_engine engineType req
        forwarded := some ttsResult }
    | none =>
      { manager := { m with state := .error }
        ret := .error "No audio output device available"
        engineCall := engineCalled m.cloud_engine engineType req
        forwarded := none }
  | .error e =>
    { manager := { m with state := .error }
      ret := .error e
      engineCall := engineCalled m.cloud_engine engineType req
      forwarded := none }

/-- TtsManager::stop (manager.rs lines 121-127): the player stop command (when
a player exists) is propagated with the question-mark operator before the
state is set to Idle. -/
def TtsManager.stop (decodeRes : List Nat → Except String Unit) (m : TtsManager) :
    TtsManager × Except String Unit :=
  let playerRes : Except String Unit :=
    match m.player with
    | some _ => AudioPlayer.stop decodeRes
    | none => .ok ()
  match playerRes with
  | .error e => (m, .error e)
  | .ok _ => ({ m with state := .idle }, .ok ())

/-- TtsManager::pause (manager.rs lines 130-136). -/
def TtsManager.pause (decodeRes : List Nat → Except String Unit) (m : TtsManager) :
    TtsManager × Except String Unit :=
  let playerRes : Except String Unit :=
    match m.player with
    | some _ => AudioPlayer.pause decodeRes
    | none => .ok ()
  match playerRes with
  | .error e => (m, .error e)
  | .ok _ => ({ m with state := .paused }, .ok ())

/-- TtsManager::resume (manager.rs lines 139-145). -/
def TtsManager.resume (decodeRes : List Nat → Except String Unit) (m : TtsManager) :
    TtsManager × Except String Unit :=
  let playerRes : Except String Unit :=
    match m.player with
    | some _ => AudioPlayer.resume decodeRes
    | none => .ok ()
  match playerRes with
  | .error e => (m, .error e)
  | .ok _ => ({ m with state := .playing }, .ok ())

/-- TtsManager::get_state (manager.rs lines 148-150). -/
def TtsManager.get_state (m : TtsManager) : PlaybackState :=
  m.state

/-- TtsManager::update_config (manager.rs lines 182-187): only the stored
configuration snapshot is replaced. -/
def TtsManager.update_config (m : TtsManager) (new_config : TtsConfig) : TtsManager :=
  { m with config := new_config }

/-- TtsManager::get_config (manager.rs lines 190-192). -/
def TtsManager.get_config (m : TtsManager) : TtsConfig :=
  m.config

/-- TtsManager::get_available_engines (manager.rs lines 165-179), given the
outcome of each is_available probe. -/
def TtsManager.get_available_engines (systemAvail piperAvail : Bool)
    (cloudAvail : CloudTtsEngine → Bool) (m : TtsManager) : List EngineType :=
  (if systemAvail then [EngineType.system] else []) ++
  (if piperAvail then [EngineType.piper] else []) ++
  (match m.cloud_engine with
   | some e => if cloudAvail e then [EngineType.cloud] else []
   | none => [])

/-! ## Operation sequences over the orchestrator -/

/-- One externally invokable orchestrator operation, together with the
outcomes of the external calls it makes. -/
inductive TtsOp where
  | speakOp (synth : EngineType → TtsRequest → Except String TtsResult)
      (decodeRes : List Nat → Except String Unit) (request : TtsRequest)
  | stopOp (decodeRes : List Nat → Except String Unit)
  | pauseOp (decodeRes : List Nat → Except String Unit)
  | resumeOp (decodeRes : List Nat → Except String Unit)

/-- Execute one operation on the manager. -/
def TtsManager.step (m : TtsManager) : TtsOp → TtsManager × Except String Unit
  | .speakOp synth decodeRes request =>
    let o := m.speak synth decodeRes request
    (o.manager, o.ret)
  | .stopOp decodeRes => m.stop decodeRes
  | .pauseOp decodeRes => m.pause decodeRes
  | .resumeOp decodeRes => m.resume decodeRes

/-- Execute a sequence of operations on the manager. -/
def TtsManager.run (m : TtsManager) (ops : List TtsOp) : TtsManager :=
  ops.foldl (fun acc op => (acc.step op).1) m

/-- The operation is a speak call in which synthesis failed, or in which no
audio player exists. -/
def speakSynthFailedOrNoPlayer (m : TtsManager) : TtsOp → Prop
  | .speakOp synth _ request =>
    exceptIsOk (synthResult synth m.cloud_engine (resolveEngine m.config request)
      (resolveRequest m.config request)) = false ∨ m.player = none
  | _ => False

/-! ## External process supervisor (server.rs) -/

/-- Fixed loopback host (server.rs line 10). -/
def DEFAULT_HOST : String := "127.0.0.1"

/-- Fixed port (server.rs line 11). -/
def DEFAULT_PORT : Nat := 17493

/-- Maximum number of health polls (server.rs line 12). -/
def HEALTH_MAX_RETRIES : Nat := 60

/-- Supervisor state (server.rs, ServerProcess fields): an optional child
handle, modelled by its pid, and the fixed base url. -/
structure ServerProcess where
  child : Option Nat
  server_url : String
deriving DecidableEq, Repr

/-- ServerProcess::new (server.rs lines 22-27). -/
def ServerProcess.new : ServerProcess :=
  { child := none
    server_url := "http://" ++ DEFAULT_HOST ++ ":" ++ toString DEFAULT_PORT }

/-- Outcome of `child.try_wait()` on a live handle (server.rs lines 149-158):
the child already exited, is still running, or the wait itself errored. -/
inductive TryWaitResult where
  | exited
  | stillRunning
  | waitErr
deriving DecidableEq, Repr

/-- ServerProcess::is_running (server.rs lines 146-163): with no tracked child
it reports false; otherwise the handle is reaped (cleared) unless try_wait
says the child is still running. -/
def ServerProcess.is_running (tw : TryWaitResult) (s : ServerProcess) :
    ServerProcess × Bool :=
  match s.child with
  | some _ =>
    match tw with
    | .exited => ({ s with child := none }, false)
    | .stillRunning => (s, true)
    | .waitErr => ({ s with child := none }, false)
  | none => (s, false)

/-- ServerProcess::start (server.rs lines 69-107): returns Ok immediately when
is_running reports a live child; otherwise resolves and creates the data
directory (`dataDirRes`), then spawns the child (`spawnRes` carries the new
pid). The third component counts processes spawned by this call. -/
def ServerProcess.start (tw : TryWaitResult) (dataDirRes : Except String Unit)
    (spawnRes : Except String Nat) (s : ServerProcess) :
    ServerProcess × Except String Unit × Nat :=
  let probe := s.is_running tw
  if probe.2 then (probe.1, .ok (), 0)
  else
    match dataDirRes with
    | .error e => (probe.1, .error e, 0)
    | .ok _ =>
      match spawnRes with
      | .error e => (probe.1, .error e, 0)
      | .ok pid => ({ probe.1 with child := some pid }, .ok (), 1)

/-- Outcome of the bounded graceful wait in stop (server.rs line 179): either
`child.wait()` returned an exit status within the grace period, or the timeout
elapsed or the wait errored. -/
inductive GraceWait where
  | exitedGracefully
  | graceExpired
deriving DecidableEq, Repr

/-- ServerProcess::stop (server.rs lines 166-195): the shutdown request is
fire-and-forget; when a child is tracked and the grace period expires the
child is killed (third component true); the handle is always cleared and the
call always returns Ok. -/
def ServerProcess.stop (gw : GraceWait) (s : ServerProcess) :
    ServerProcess × Except String Unit × Bool :=
  let killed :=
    match s.child with
    | some _ =>
      match gw with
      | .exitedGracefully => false
      | .graceExpired => true
    | none => false
  ({ s with child := none }, .ok (), killed)

/-- Outcome of one health poll (server.rs lines 118-135): a 2xx response, a
non-2xx response, or a request error. -/
inductive HealthAttempt where
  | success
  | badStatus
  | connErr
deriving DecidableEq, Repr

/-- The retry loop of health_check (server.rs lines 117-142), counting from
`attempt` with `fuel` attempts left. Returns the call result, the number of
polls performed, and the number of interval sleeps performed: the loop returns
on the first 2xx before sleeping, and sleeps after every other attempt. -/
def healthCheckLoop (resp : Nat → HealthAttempt) (attempt : Nat) :
    Nat → Except String Unit × Nat × Nat
  | 0 =>
    (.error ("Server did not become healthy after " ++
      toString HEALTH_MAX_RETRIES ++ " attempts"), 0, 0)
  | fuel + 1 =>
    match resp attempt with
    | .success => (.ok (), 1, 0)
    | _ =>
      let rest := healthCheckLoop resp (attempt + 1) fuel
      (rest.1, rest.2.1 + 1, rest.2.2 + 1)

/-- ServerProcess::health_check (server.rs lines 110-143): polls attempts
1 up to HEALTH_MAX_RETRIES. -/
def ServerProcess.health_check (resp : Nat → HealthAttempt) (_s : ServerProcess) :
    Except String Unit × Nat × Nat :=
  healthCheckLoop resp 1 HEALTH_MAX_RETRIES

/-! ## Concrete sample values (used by witnesses) -/

/-- Sample configuration with a non-empty cloud api key. -/
def sampleConfig : TtsConfig :=
  { active_engine := .system
    system := { voice := none }
    piper := { model_path := none, piper_binary := none }
    cloud := { provider := .openAI, api_key := some "k", voice := none, endpoint := none }
    default_rate := 1
    default_pitch := 1
    default_volume := 1 }

/-- A second, different sample configuration. -/
def sampleConfig2 : TtsConfig :=
  { sampleConfig with active_engine := .piper, default_rate := 2 }

/-- Sample request with nothing set besides the text. -/
def sampleRequest : TtsRequest :=
  { text := "Hello", engine := none, voice := none, rate := none, pitch := none, volume := none }

/-- Sample synthesis result. -/
def sampleResult : TtsResult :=
  { audio_data := [0, 1], sample_rate := 22050, channels := 1, format := "wav" }

/-- Engine behaviour: every synthesize call succeeds with sampleResult. -/
def synthOkFn : EngineType → TtsRequest → Except String TtsResult :=
  fun _ _ => .ok sampleResult

/-- Engine behaviour: every synthesize call fails. -/
def synthErrFn : EngineType → TtsRequest → Except String TtsResult :=
  fun _ _ => .error "engine unavailable"

/-- Decoder behaviour: every buffer decodes. -/
def decodeOkFn : List Nat → Except String Unit :=
  fun _ => .ok ()

/-- Sample manager whose audio player initialized successfully. -/
def sampleManager : TtsManager :=
  TtsManager.new sampleConfig (some .ok)

/-- Sample manager whose audio player thread died during the init handshake. -/
def sampleManagerNoPlayer : TtsManager :=
  TtsManager.new sampleConfig none

/-! ## Helper lemmas -/

/-- stop always reaches the Idle assignment: the worker replies Ok to the Stop
command, so the early return on a player error is never taken. -/
lemma TtsManager.stop_eq (d : List Nat → Except String Unit) (m : TtsManager) :
    m.stop d = ({ m with state := .idle }, .ok ()) := by
  cases hp : m.player <;>
    simp [TtsManager.stop, AudioPlayer.stop, AudioPlayer.sendCmd, handleCommand, hp]

/-- pause always reaches the Paused assignment. -/
lemma TtsManager.pause_eq (d : List Nat → Except String Unit) (m : TtsManager) :
    m.pause d = ({ m with state := .paused }, .ok ()) := by
  cases hp : m.player <;>
    simp [TtsManager.pause, AudioPlayer.pause, AudioPlayer.sendCmd, handleCommand, hp]

/-- resume always reaches the Playing assignment. -/
lemma TtsManager.resume_eq (d : List Nat → Except String Unit) (m : TtsManager) :
    m.resume d = ({ m with state := .playing }, .ok ()) := by
  cases hp : m.player <;>
    simp [TtsManager.resume, AudioPlayer.resume, AudioPlayer.sendCmd, handleCommand, hp]

/-- Evaluation of speak when the synthesis dispatch fails. -/
lemma TtsManager.speak_err (synth : EngineType → TtsRequest → Except String TtsResult)
    (d : List Nat → Except String Unit) (m : TtsManager) (request : TtsRequest)
    (e : String)
    (hs : synthResult synth m.cloud_engine (resolveEngine m.config request)
      (resolveRequest m.config request) = .error e) :
    m.speak synth d request =
      { manager := { m with state := .error }
        ret := .error e
        engineCall := engineCalled m.cloud_engine (resolveEngine m.config request)
          (resolveRequest m.config request)
        forwarded := none } := by
  simp [TtsManager.speak, hs]

/-- Evaluation of speak when synthesis succeeds and a player exists. -/
lemma TtsManager.speak_ok_player (synth : EngineType → TtsRequest → Except String TtsResult)
    (d : List Nat → Except String Unit) (m : TtsManager) (request : TtsRequest)
    (r : TtsResult) (u : Unit)
    (hs : synthResult synth m.cloud_engine (resolveEngine m.config request)
      (resolveRequest m.config request) = .ok r)
    (hp : m.player = some u) :
    m.speak synth d request =
      { manager := { m with state := .playing }
        ret := AudioPlayer.play d r
        engineCall := engineCalled m.cloud_engine (resolveEngine m.config request)
          (resolveRequest m.config request)
        forwarded := some r } := by
  simp [TtsManager.speak, hs, hp]

/-- Evaluation of speak when synthesis succeeds but no player exists. -/
lemma TtsManager.speak_ok_noPlayer (synth : EngineType → TtsRequest → Except String TtsResult)
    (d : List Nat → Except String Unit) (m : TtsManager) (request : TtsRequest)
    (r : TtsResult)
    (hs : synthResult synth m.cloud_engine (resolveEngine m.config request)
      (resolveRequest m.config request) = .ok r)
    (hp : m.player = none) :
    m.speak synth d request =
      { manager := { m with state := .error }
        ret := .error "No audio output device available"
        engineCall := engineCalled m.cloud_engine (resolveEngine m.config request)
          (resolveRequest m.config request)
        forwarded := none } := by
  simp [TtsManager.speak, hs, hp]

/-- The dispatch hands the engine exactly the request it was given. -/
lemma engineCalled_req (cloudEngine : Option CloudTtsEngine) (et et2 : EngineType)
    (req rq : TtsRequest) (h : engineCalled cloudEngine et req = some (et2, rq)) :
    rq = req := by
  cases et <;> simp [engineCalled] at h
  · exact h.2.symm
  · exact h.2.symm
  · cases cloudEngine <;> simp_all

/-! ## Claim theorems -/

/-- C1: for every speak call, if the dispatched synthesize fails then speak
sets the state to Error and returns that failure; if it succeeds but no audio
player exists, speak sets the state to Error and returns the no-device
failure; if it succeeds and a player exists, speak marks the state Playing and
forwards the synthesis result to the audio output worker, returning the play
result of the worker. -/
theorem speak_state_and_result (synth : EngineType → TtsRequest → Except String TtsResult)
    (decodeRes : List Nat → Except String Unit) (m : TtsManager) (request : TtsRequest) :
    (∀ e, synthResult synth m.cloud_engine (resolveEngine m.config request)
        (resolveRequest m.config request) = .error e →
      (m.speak synth decodeRes request).manager.state = .error ∧
      (m.speak synth decodeRes request).ret = .error e) ∧
    (∀ r, synthResult synth m.cloud_engine (resolveEngine m.config request)
        (resolveRequest m.config request) = .ok r →
      (m.player = none →
        (m.speak synth decodeRes request).manager.state = .error ∧
        (m.speak synth decodeRes request).ret = .error "No audio output device available") ∧
      (∀ u, m.player = some u →
        (m.speak synth decodeRes request).manager.state = .playing ∧
        (m.speak synth decodeRes request).forwarded = some r ∧
        (m.speak synth decodeRes request).ret = AudioPlayer.play decodeRes r)) := by
  constructor
  · intro e he
    rw [m.speak_err synth decodeRes request e he]
    exact ⟨rfl, rfl⟩
  · intro r hr
    constructor
    · intro hp
      rw [m.speak_ok_noPlayer synth decodeRes request r hr hp]
      exact ⟨rfl, rfl⟩
    · intro u hp
      rw [m.speak_ok_player synth decodeRes request r u hr hp]
      exact ⟨rfl, rfl, rfl⟩

/-- Witness for C1 at concrete inputs: a failing engine and a missing player
both leave the state Error, a succeeding engine with a player present leaves
the state Playing with the result forwarded. -/
theorem speak_state_and_result_witness :
    (sampleManager.speak synthErrFn decodeOkFn sampleRequest).manager.state = .error ∧
    (sampleManagerNoPlayer.speak synthOkFn decodeOkFn sampleRequest).manager.state = .error ∧
    (sampleManager.speak synthOkFn decodeOkFn sampleRequest).manager.state = .playing ∧
    (sampleManager.speak synthOkFn decodeOkFn sampleRequest).forwarded = some sampleResult := by
  have h1 := (speak_state_and_result synthErrFn decodeOkFn sampleManager sampleRequest).1
    "engine unavailable" rfl
  have h2 := ((speak_state_and_result synthOkFn decodeOkFn sampleManagerNoPlayer
    sampleRequest).2 sampleResult rfl).1 rfl
  have h3 := ((speak_state_and_result synthOkFn decodeOkFn sampleManager
    sampleRequest).2 sampleResult rfl).2 () rfl
  exact ⟨h1.1, h2.1, h3.1, h3.2.1⟩

/-- C3: in a speak call, each of rate, pitch and volume that is unset in the
request is filled from the corresponding default of the configuration
snapshot, each one that is set passes through unchanged independent of the
defaults, and the resolved request is exactly what the dispatched engine
synthesize call receives. -/
theorem speak_merges_defaults (config : TtsConfig) (request : TtsRequest) :
    (request.rate = none → (resolveRequest config request).rate = some config.default_rate) ∧
    (∀ v, request.rate = some v → (resolveRequest config request).rate = some v) ∧
    (request.pitch = none → (resolveRequest config request).pitch = some config.default_pitch) ∧
    (∀ v, request.pitch = some v → (resolveRequest config request).pitch = some v) ∧
    (request.volume = none → (resolveRequest config request).volume = some config.default_volume) ∧
    (∀ v, request.volume = some v → (resolveRequest config request).volume = some v) ∧
    (∀ synth decodeRes (m : TtsManager), m.config = config →
      ∀ et rq, (m.speak synth decodeRes request).engineCall = some (et, rq) →
        rq = resolveRequest config request) := by
  refine ⟨?_, ?_, ?_, ?_, ?_, ?_, ?_⟩
  · intro h; simp [resolveRequest, h]
  · intro v h; simp [resolveRequest, h]
  · intro h; simp [resolveRequest, h]
  · intro v h; simp [resolveRequest, h]
  · intro h; simp [resolveRequest, h]
  · intro v h; simp [resolveRequest, h]
  · intro synth decodeRes m hm et rq hcall
    subst hm
    cases hs : synthResult synth m.cloud_engine (resolveEngine m.config request)
        (resolveRequest m.config request) with
    | ok r =>
      cases hp : m.player with
      | some u =>
        rw [m.speak_ok_player synth decodeRes request r u hs hp] at hcall
        exact engineCalled_req _ _ _ _ _ hcall
      | none =>
        rw [m.speak_ok_noPlayer synth decodeRes request r hs hp] at hcall
        exact engineCalled_req _ _ _ _ _ hcall
    | error e =>
      rw [m.speak_err synth decodeRes request e hs] at hcall
      exact engineCalled_req _ _ _ _ _ hcall

/-- Witness for C3 at concrete inputs: the unset rate of the sample request is
filled from the default, a set rate passes through, and the engine receives
the resolved request. -/
theorem speak_merges_defaults_witness :
    (resolveRequest sampleConfig sampleRequest).rate = some sampleConfig.default_rate ∧
    (resolveRequest sampleConfig { sampleRequest with rate := some 2 }).rate = some 2 ∧
    (sampleManager.speak synthOkFn decodeOkFn sampleRequest).engineCall =
      some (.system, resolveRequest sampleConfig sampleRequest) := by
  refine ⟨(speak_merges_defaults sampleConfig sampleRequest).1 rfl,
    (speak_merges_defaults sampleConfig { sampleRequest with rate := some 2 }).2.1 2 rfl,
    ?_⟩
  rw [sampleManager.speak_ok_player synthOkFn decodeOkFn sampleRequest sampleResult () rfl rfl]
  rfl

/-- C8: stop succeeds from every state and sets the state to Idle, stopping
twice equals stopping once, and a stop issued while the state is already Idle
changes nothing at all. -/
theorem stop_idle_idempotent (decodeRes decodeRes2 : List Nat → Except String Unit)
    (m : TtsManager) :
    (m.stop decodeRes).1.state = .idle ∧
    (m.stop decodeRes).2 = .ok () ∧
    ((m.stop decodeRes).1.stop decodeRes2) = (m.stop decodeRes).1.stop decodeRes ∧
    ((m.stop decodeRes).1.stop decodeRes2).1 = (m.stop decodeRes).1 ∧
    (m.state = .idle → (m.stop decodeRes).1 = m) := by
  rw [m.stop_eq decodeRes]
  refine ⟨rfl, rfl, ?_, ?_, ?_⟩
  · rw [TtsManager.stop_eq, TtsManager.stop_eq]
  · rw [TtsManager.stop_eq]
  · intro h
    cases m
    simp_all

/-- Witness for C8 at a concrete input: the sample manager starts Idle and a
stop call leaves it exactly unchanged. -/
theorem stop_idle_idempotent_witness :
    (sampleManager.stop decodeOkFn).1 = sampleManager ∧
    (sampleManager.stop decodeOkFn).1.state = .idle := by
  have h := stop_idle_idempotent decodeOkFn decodeOkFn sampleManager
  exact ⟨h.2.2.2.2 rfl, h.1⟩

/-- Per-step form of the error invariant: one operation leaves the state Error
only when it is a speak whose synthesis failed or that found no player, and an
operation that returns success never leaves the state Error. -/
lemma ttsStep_error_aux (m : TtsManager) (op : TtsOp) :
    ((m.step op).1.state = .error → speakSynthFailedOrNoPlayer m op) ∧
    (exceptIsOk (m.step op).2 = true → (m.step op).1.state ≠ .error) := by
  cases op with
  | speakOp synth d request =>
    simp only [TtsManager.step, speakSynthFailedOrNoPlayer]
    cases hs : synthResult synth m.cloud_engine (resolveEngine m.config request)
        (resolveRequest m.config request) with
    | ok r =>
      cases hp : m.player with
      | some u =>
        rw [m.speak_ok_player synth d request r u hs hp]
        constructor
        · intro h; simp at h
        · intro _ h; simp at h
      | none =>
        rw [m.speak_ok_noPlayer synth d request r hs hp]
        constructor
        · intro _; exact Or.inr rfl
        · intro hok; simp [exceptIsOk] at hok
    | error e =>
      rw [m.speak_err synth d request e hs]
      constructor
      · intro _; exact Or.inl (by simp [exceptIsOk, hs])
      · intro hok; simp [exceptIsOk] at hok
  | stopOp d =>
    have hstep : m.step (.stopOp d) = m.stop d := rfl
    rw [hstep, m.stop_eq d]
    exact ⟨fun h => by simp at h, fun _ h => by simp at h⟩
  | pauseOp d =>
    have hstep : m.step (.pauseOp d) = m.pause d := rfl
    rw [hstep, m.pause_eq d]
    exact ⟨fun h => by simp at h, fun _ h => by simp at h⟩
  | resumeOp d =>
    have hstep : m.step (.resumeOp d) = m.resume d := rfl
    rw [hstep, m.resume_eq d]
    exact ⟨fun h => by simp at h, fun _ h => by simp at h⟩

/-- C2: over every operation sequence on a freshly constructed manager, the
state is Error after a step only when that step was a speak call whose
synthesis failed or that found no audio player, any operation that returns
success leaves the state not Error, and a fresh manager does not start in
Error. -/
theorem state_error_invariant (config : TtsConfig) (fr : Option PlayerResponse)
    (ops : List TtsOp) (op : TtsOp) :
    (TtsManager.new config fr).state ≠ .error ∧
    ((((TtsManager.new config fr).run ops).step op).1.state = .error →
      speakSynthFailedOrNoPlayer ((TtsManager.new config fr).run ops) op) ∧
    (exceptIsOk (((TtsManager.new config fr).run ops).step op).2 = true →
      (((TtsManager.new config fr).run ops).step op).1.state ≠ .error) := by
  refine ⟨?_, (ttsStep_error_aux _ op).1, (ttsStep_error_aux _ op).2⟩
  simp [TtsManager.new]

/-- Witness for C2 at concrete inputs: a failing speak as first operation does
leave the fresh sample manager in Error, and the invariant names that speak as
the cause. -/
theorem state_error_invariant_witness :
    speakSynthFailedOrNoPlayer ((TtsManager.new sampleConfig (some .ok)).run [])
      (.speakOp synthErrFn decodeOkFn sampleRequest) ∧
    (TtsManager.new sampleConfig (some .ok)).state ≠ .error := by
  have h := state_error_invariant sampleConfig (some .ok) []
    (.speakOp synthErrFn decodeOkFn sampleRequest)
  exact ⟨h.2.1 rfl, h.1⟩

/-- C10: pause and resume have no precondition on the current state: from any
manager (player present or absent, any playback state) pause succeeds and sets
the state to Paused, and resume succeeds and sets the state to Playing; no
other field changes. -/
theorem pause_resume_unconditional (decodeRes : List Nat → Except String Unit)
    (m : TtsManager) :
    (m.pause decodeRes).2 = .ok () ∧
    (m.pause decodeRes).1 = { m with state := .paused } ∧
    (m.resume decodeRes).2 = .ok () ∧
    (m.resume decodeRes).1 = { m with state := .playing } := by
  rw [m.pause_eq decodeRes, m.resume_eq decodeRes]
  exact ⟨rfl, rfl, rfl, rfl⟩

/-- C9: update_config replaces only the stored configuration snapshot, so
get_config returns the new value and subsequent speak calls resolve the engine
and the defaults from it, while the piper engine, the cloud engine (its
provider, api key, voice and endpoint, and whether it exists at all, fixed by
the construction-time configuration) and the player are unchanged and continue
to be used by the synthesize dispatch and by get_available_engines. -/
theorem update_config_frame (c0 c1 : TtsConfig) (fr : Option PlayerResponse) :
    ((TtsManager.new c0 fr).update_config c1).get_config = c1 ∧
    ((TtsManager.new c0 fr).update_config c1).piper_engine =
      PiperTtsEngine.new c0.piper.piper_binary c0.piper.model_path ∧
    ((TtsManager.new c0 fr).update_config c1).cloud_engine =
      (TtsManager.new c0 fr).cloud_engine ∧
    ((TtsManager.new c0 fr).update_config c1).player = (TtsManager.new c0 fr).player ∧
    ((TtsManager.new c0 fr).update_config c1).state = (TtsManager.new c0 fr).state ∧
    ((∃ e, ((TtsManager.new c0 fr).update_config c1).cloud_engine = some e) ↔
      ∃ k, c0.cloud.api_key = some k ∧ k.isEmpty = false) ∧
    (∀ k, c0.cloud.api_key = some k → k.isEmpty = false →
      ((TtsManager.new c0 fr).update_config c1).cloud_engine =
        some (CloudTtsEngine.new c0.cloud.provider k c0.cloud.voice c0.cloud.endpoint)) ∧
    (∀ sa pa ca, ((TtsManager.new c0 fr).update_config c1).get_available_engines sa pa ca =
      (TtsManager.new c0 fr).get_available_engines sa pa ca) ∧
    (∀ req, resolveEngine ((TtsManager.new c0 fr).update_config c1).config req =
        resolveEngine c1 req ∧
      resolveRequest ((TtsManager.new c0 fr).update_config c1).config req =
        resolveRequest c1 req) ∧
    (∀ synth d req, (((TtsManager.new c0 fr).update_config c1).speak synth d req).engineCall =
      engineCalled (TtsManager.new c0 fr).cloud_engine (resolveEngine c1 req)
        (resolveRequest c1 req)) := by
  refine ⟨rfl, rfl, rfl, rfl, rfl, ?_, ?_, fun sa pa ca => rfl, fun req => ⟨rfl, rfl⟩, ?_⟩
  · constructor
    · intro ⟨e, he⟩
      simp only [TtsManager.update_config, TtsManager.new] at he
      cases hk : c0.cloud.api_key with
      | none => rw [hk] at he; simp at he
      | some k =>
        rw [hk] at he
        by_cases hke : k.isEmpty
        · simp [hke] at he
        · exact ⟨k, rfl, by simp [hke]⟩
    · intro ⟨k, hk, hke⟩
      simp only [TtsManager.update_config, TtsManager.new, hk]
      simp [hke]
  · intro k hk hke
    simp only [TtsManager.update_config, TtsManager.new, hk]
    simp [hke]
  · intro synth d req
    set m2 := (TtsManager.new c0 fr).update_config c1 with hm2
    have hcfg : m2.config = c1 := rfl
    have hce : m2.cloud_engine = (TtsManager.new c0 fr).cloud_engine := rfl
    cases hs : synthResult synth m2.cloud_engine (resolveEngine m2.config req)
        (resolveRequest m2.config req) with
    | ok r =>
      cases hp : m2.player with
      | some u =>
        rw [m2.speak_ok_player synth d req r u hs hp]
        rw [hce, hcfg] at *
      | none =>
        rw [m2.speak_ok_noPlayer synth d req r hs hp]
        rw [hce, hcfg] at *
    | error e =>
      rw [m2.speak_err synth d req e hs]
      rw [hce, hcfg] at *

/-- Witness for C9 at concrete inputs: updating the sample configuration to a
new one changes get_config to the new snapshot while the cloud engine keeps
the construction-time provider, key, voice and endpoint. -/
theorem update_config_frame_witness :
    ((TtsManager.new sampleConfig (some .ok)).update_config sampleConfig2).get_config =
      sampleConfig2 ∧
    ((TtsManager.new sampleConfig (some .ok)).update_config sampleConfig2).cloud_engine =
      some (CloudTtsEngine.new .openAI "k" none none) := by
  have h := update_config_frame sampleConfig sampleConfig2 (some .ok)
  exact ⟨h.1, h.2.2.2.2.2.2.1 "k" rfl rfl⟩

/-- C4: start while a tracked child is alive returns success without spawning
and leaves the supervisor unchanged, so two start calls with no intervening
stop or child exit spawn exactly one process (the Option-typed handle tracks
at most one child throughout). -/
theorem start_spawns_at_most_once (s : ServerProcess) (c pid : Nat)
    (tw1 : TryWaitResult) (dd2 : Except String Unit) (sp2 : Except String Nat) :
    (s.child = some c → s.start .stillRunning dd2 sp2 = (s, .ok (), 0)) ∧
    (s.child = none →
      (s.start tw1 (.ok ()) (.ok pid)).1.child = some pid ∧
      (s.start tw1 (.ok ()) (.ok pid)).2.1 = .ok () ∧
      (s.start tw1 (.ok ()) (.ok pid)).2.2 = 1 ∧
      ((s.start tw1 (.ok ()) (.ok pid)).1.start .stillRunning dd2 sp2) =
        ((s.start tw1 (.ok ()) (.ok pid)).1, .ok (), 0) ∧
      (s.start tw1 (.ok ()) (.ok pid)).2.2 +
        ((s.start tw1 (.ok ()) (.ok pid)).1.start .stillRunning dd2 sp2).2.2 = 1) := by
  constructor
  · intro hc
    simp [ServerProcess.start, ServerProcess.is_running, hc]
  · intro hc
    have h1 : s.start tw1 (.ok ()) (.ok pid) =
        ({ s with child := some pid }, .ok (), 1) := by
      cases tw1 <;> simp [ServerProcess.start, ServerProcess.is_running, hc]
    have h2 : ({ s with child := some pid } : ServerProcess).start .stillRunning dd2 sp2 =
        ({ s with child := some pid }, .ok (), 0) := by
      simp [ServerProcess.start, ServerProcess.is_running]
    rw [h1]
    exact ⟨rfl, rfl, rfl, h2, by rw [h2]; rfl⟩


/-- Witness for C4 at concrete inputs: from a fresh supervisor, a first start
spawns pid 5 and a second start with the child still running spawns nothing
and succeeds, for one spawn in total. -/
theorem start_spawns_at_most_once_witness :
    (ServerProcess.new.start .stillRunning (.ok ()) (.ok 5)).1.child = some 5 ∧
    ((ServerProcess.new.start .stillRunning (.ok ()) (.ok 5)).1.start
      .stillRunning (.ok ()) (.ok 7)) =
      ((ServerProcess.new.start .stillRunning (.ok ()) (.ok 5)).1, .ok (), 0) ∧
    (ServerProcess.new.start .stillRunning (.ok ()) (.ok 5)).2.2 +
      ((ServerProcess.new.start .stillRunning (.ok ()) (.ok 5)).1.start
        .stillRunning (.ok ()) (.ok 7)).2.2 = 1 := by
  have h := (start_spawns_at_most_once ServerProcess.new 0 5 .stillRunning
    (.ok ()) (.ok 7)).2 rfl
  exact ⟨h.1, h.2.2.2.1, h.2.2.2.2⟩

/-- C5: stop always clears the stored handle and returns success; when a child
is tracked and the grace period expires the child is forcibly killed, when it
exits within the grace period it is not killed, and with no tracked child stop
is a no-op that kills nothing and changes nothing. -/
theorem stop_clears_handle (s : ServerProcess) (gw : GraceWait) (c : Nat) :
    (s.stop gw).1.child = none ∧
    (s.stop gw).2.1 = .ok () ∧
    (s.child = some c → gw = .graceExpired → (s.stop gw).2.2 = true) ∧
    (s.child = some c → gw = .exitedGracefully → (s.stop gw).2.2 = false) ∧
    (s.child = none → (s.stop gw).2.2 = false ∧ (s.stop gw).1 = s) := by
  refine ⟨rfl, rfl, ?_, ?_, ?_⟩
  · intro hc hg
    subst hg
    simp [ServerProcess.stop, hc]
  · intro hc hg
    subst hg
    simp [ServerProcess.stop, hc]
  · intro hc
    refine ⟨by simp [ServerProcess.stop, hc], ?_⟩
    cases s
    simp_all [ServerProcess.stop]

/-- Witness for C5 at concrete inputs: stopping a supervisor tracking pid 5
after an expired grace period kills the child and clears the handle, and
stopping a fresh supervisor is a successful no-op. -/
theorem stop_clears_handle_witness :
    (({ child := some 5, server_url := "u" } : ServerProcess).stop .graceExpired).2.2 = true ∧
    (({ child := some 5, server_url := "u" } : ServerProcess).stop .graceExpired).1.child
      = none ∧
    (ServerProcess.new.stop .graceExpired).1 = ServerProcess.new ∧
    (ServerProcess.new.stop .graceExpired).2.2 = false := by
  have h1 := stop_clears_handle { child := some 5, server_url := "u" } .graceExpired 5
  have h2 := stop_clears_handle ServerProcess.new .graceExpired 5
  exact ⟨h1.2.2.1 rfl rfl, h1.1, (h2.2.2.2.2 rfl).2, (h2.2.2.2.2 rfl).1⟩

/-- The retry loop with no successful attempt in range uses all its fuel: the
result is the timeout error after exactly fuel polls and fuel sleeps. -/
lemma healthCheckLoop_timeout (resp : Nat → HealthAttempt) (f a : Nat)
    (h : ∀ i, a ≤ i → i < a + f → resp i ≠ .success) :
    healthCheckLoop resp a f =
      (.error ("Server did not become healthy after " ++
        toString HEALTH_MAX_RETRIES ++ " attempts"), f, f) := by
  induction f generalizing a with
  | zero => rfl
  | succ f ih =>
    have ha : resp a ≠ .success := h a (by omega) (by omega)
    have hrest := ih (a + 1) (fun i h1 h2 => h i (by omega) (by omega))
    cases hr : resp a with
    | success => exact absurd hr ha
    | badStatus => simp [healthCheckLoop, hr, hrest]
    | connErr => simp [healthCheckLoop, hr, hrest]

/-- The retry loop returns Ok at the first successful attempt j in range,
after j - a + 1 polls and j - a sleeps. -/
lemma healthCheckLoop_first_success (resp : Nat → HealthAttempt) (f a j : Nat)
    (haj : a ≤ j) (hjf : j < a + f) (hs : resp j = .success)
    (hmin : ∀ i, a ≤ i → i < j → resp i ≠ .success) :
    healthCheckLoop resp a f = (.ok (), j - a + 1, j - a) := by
  induction f generalizing a with
  | zero => omega
  | succ f ih =>
    rcases Nat.eq_or_lt_of_le haj with heq | hlt
    · subst heq
      simp [healthCheckLoop, hs]
    · have ha : resp a ≠ .success := hmin a (by omega) hlt
      have hrest := ih (a + 1) (by omega) (by omega)
        (fun i h1 h2 => hmin i (by omega) h2)
      have hj1 : j - (a + 1) + 1 = j - a := by omega
      cases hr : resp a with
      | success => exact absurd hr ha
      | badStatus =>
        simp only [healthCheckLoop, hr, hrest]
        refine Prod.ext rfl (Prod.ext ?_ ?_) <;> simp <;> omega
      | connErr =>
        simp only [healthCheckLoop, hr, hrest]
        refine Prod.ext rfl (Prod.ext ?_ ?_) <;> simp <;> omega

/-- C6: health_check polls at most HEALTH_MAX_RETRIES = 60 times with one
interval sleep between consecutive polls; it returns success at the first 2xx
attempt j, having made exactly j polls (none after the success) and j - 1
sleeps, and when no attempt in range is 2xx it returns the timeout error after
exactly 60 polls. -/
theorem health_check_spec (s : ServerProcess) (resp : Nat → HealthAttempt) (j : Nat) :
    HEALTH_MAX_RETRIES = 60 ∧
    ((∀ i, 1 ≤ i → i ≤ HEALTH_MAX_RETRIES → resp i ≠ .success) →
      s.health_check resp =
        (.error ("Server did not become healthy after " ++
          toString HEALTH_MAX_RETRIES ++ " attempts"),
         HEALTH_MAX_RETRIES, HEALTH_MAX_RETRIES)) ∧
    (1 ≤ j → j ≤ HEALTH_MAX_RETRIES → resp j = .success →
      (∀ i, 1 ≤ i → i < j → resp i ≠ .success) →
      s.health_check resp = (.ok (), j, j - 1)) := by
  refine ⟨rfl, ?_, ?_⟩
  · intro h
    exact healthCheckLoop_timeout resp HEALTH_MAX_RETRIES 1
      (fun i h1 h2 => h i h1 (by omega))
  · intro h1 h60 hs hmin
    have := healthCheckLoop_first_success resp HEALTH_MAX_RETRIES 1 j h1
      (by omega) hs
      (fun i hi1 hij => hmin i hi1 hij)
    have hj : j - 1 + 1 = j := by omega
    simpa [ServerProcess.health_check, hj] using this

/-- Witness for C6 at concrete inputs: a server that never answers 2xx yields
the timeout error after exactly 60 polls, and a server first healthy on
attempt 3 yields success after exactly 3 polls and 2 sleeps. -/
theorem health_check_spec_witness :
    ServerProcess.new.health_check (fun _ => .connErr) =
      (.error "Server did not become healthy after 60 attempts", 60, 60) ∧
    ServerProcess.new.health_check (fun i => if i = 3 then .success else .badStatus) =
      (.ok (), 3, 2) := by
  constructor
  · have h := (health_check_spec ServerProcess.new (fun _ => .connErr) 1).2.1
      (fun i _ _ => by simp)
    simpa [HEALTH_MAX_RETRIES] using h
  · have h := (health_check_spec ServerProcess.new
      (fun i => if i = 3 then .success else .badStatus) 3).2.2
      (by omega) (by simp [HEALTH_MAX_RETRIES]) (by simp)
      (fun i hi1 hi3 => by
        have : i = 1 ∨ i = 2 := by omega
        rcases this with h | h <;> simp [h])
    simpa using h

/-- C7: construction of the audio player handle fails with an error (and does
not yield a handle) exactly when the first worker response is an init error or
the worker terminated without responding, succeeds exactly when the first
response is Ok, and the worker init handshake always sends a response, which
is an error whenever the audio stream or sink cannot be obtained. -/
theorem audio_player_new_spec (firstResp : Option PlayerResponse)
    (streamRes sinkRes : Except String Unit) :
    (∀ e, AudioPlayer.new (some (.error e)) = .error ("Audio player init failed: " ++ e)) ∧
    AudioPlayer.new none = .error "Audio player thread died during init" ∧
    (exceptIsOk (AudioPlayer.new firstResp) = true ↔ firstResp = some .ok) ∧
    ((streamRes = .ok () ∧ sinkRes = .ok ()) ↔ workerInitResponse streamRes sinkRes = .ok) ∧
    (workerInitResponse streamRes sinkRes ≠ .ok →
      exceptIsOk (AudioPlayer.new (some (workerInitResponse streamRes sinkRes))) = false) := by
  refine ⟨fun e => rfl, rfl, ?_, ?_, ?_⟩
  · constructor
    · intro h
      match firstResp with
      | none => simp [AudioPlayer.new, exceptIsOk] at h
      | some .ok => rfl
      | some (.error e) => simp [AudioPlayer.new, exceptIsOk] at h
    · intro h
      subst h
      rfl
  · constructor
    · intro ⟨h1, h2⟩
      subst h1; subst h2
      rfl
    · intro h
      cases streamRes with
      | error e => simp [workerInitResponse] at h
      | ok u =>
        cases sinkRes with
        | error e => simp [workerInitResponse] at h
        | ok v => exact ⟨rfl, rfl⟩
  · intro h
    cases hw : workerInitResponse streamRes sinkRes with
    | ok => exact absurd hw h
    | error e => rfl

/-- Witness for C7 at concrete inputs: a failed sink init produces an error
response and a failed construction, while an Ok first response produces a
handle. -/
theorem audio_player_new_spec_witness :
    AudioPlayer.new (some (.error "no device")) =
      .error "Audio player init failed: no device" ∧
    exceptIsOk (AudioPlayer.new (some .ok)) = true ∧
    workerInitResponse (.ok ()) (.ok ()) = .ok ∧
    exceptIsOk (AudioPlayer.new
      (some (workerInitResponse (.error "no output") (.ok ())))) = false := by
  have h1 := audio_player_new_spec (some .ok) (.ok ()) (.ok ())
  have h2 := audio_player_new_spec (some .ok) (.error "no output") (.ok ())
  exact ⟨h1.1 "no device", h1.2.2.1.mpr rfl, h1.2.2.2.1.mp ⟨rfl, rfl⟩,
    h2.2.2.2.2 (by simp [workerInitResponse])⟩

end NekoTts
